import Mathlib

/-!
Verification of the prometheus custom-metrics adapter's rule engine and
bootstrap code.  The adapter bootstrap (`loadConfig`, `makeProvider`,
`makeKubeconfigHTTPClient`, `main`) is embedded from
`cmd/adapter/adapter.go`; the rule engine (Namer, Catalog, QueryBuilder,
Provider) is not part of the available sources and is modelled from the
specification, as marked on each definition.

Metric/series names and query strings are represented as `List Char`
(abbreviated `Str`) so that all operations are structurally recursive and
kernel-computable.
-/

namespace DeployKube

/-- Character strings, as lists of characters. -/
abbrev Str := List Char

/-- `isPre p s` is true when `p` is a prefix of `s` (charwise). -/
def isPre : Str → Str → Bool
  | [], _ => true
  | _ :: _, [] => false
  | a :: as, b :: bs => a == b && isPre as bs

/-- `isSuf p s` is true when `p` is a suffix of `s`. -/
def isSuf (p s : Str) : Bool :=
  isPre p.reverse s.reverse

/-- Modelled from the spec: the anchored regular expressions used by
discovery rules all have the shape `^pre(.*)post$` (a literal prefix, one
greedy wildcard capture group, a literal suffix), e.g.
`^container_(.*)_seconds_total$`.  `Regex` records the two literal parts;
the wildcard group stands between them. -/
structure Regex where
  pre : Str
  post : Str
deriving DecidableEq

/-- Modelled from the spec: matching `^pre(.*)post$` against a raw series
name; on a match, return the text captured by the group, otherwise
`none` (the regex does not match). -/
def regexMatch (r : Regex) (s : Str) : Option Str :=
  if isPre r.pre s && isSuf r.post s && decide (r.pre.length + r.post.length ≤ s.length) then
    some ((s.drop r.pre.length).take (s.length - r.pre.length - r.post.length))
  else
    none

/-- Whether the regex matches the string at all. -/
def regexMatches (r : Regex) (s : Str) : Bool :=
  (regexMatch r s).isSome

/-- Modelled from the spec: one entry of `seriesFilters`, an allow (`is`)
or deny (`isNot`) regex test on the metric family name. -/
inductive SeriesFilter where
  | is : Regex → SeriesFilter
  | isNot : Regex → SeriesFilter
deriving DecidableEq

/-- Modelled from the spec: a single filter test on a raw series name. -/
def filterAllows (f : SeriesFilter) (s : Str) : Bool :=
  match f with
  | .is r => regexMatches r s
  | .isNot r => !(regexMatches r s)

/-- Modelled from the spec: one piece of a `name.as` template — a literal
chunk or a capture-group reference `$n`. -/
inductive AsPart where
  | lit : Str → AsPart
  | group : Nat → AsPart
deriving DecidableEq

/-- Modelled from the spec: a `name.as` template over capture groups. -/
abbrev AsTemplate := List AsPart

/-- Modelled from the spec: expand a `name.as` template, with `cap` the
text captured by the (single) wildcard group `$1`. -/
def expandAs : AsTemplate → Str → Str
  | [], _ => []
  | .lit l :: rest, cap => l ++ expandAs rest cap
  | .group n :: rest, cap => (if n = 1 then cap else []) ++ expandAs rest cap

/-- A Kubernetes group-resource reference from `resources.overrides`. -/
structure ResourceRef where
  group : Str
  resource : Str
deriving DecidableEq

/-- Modelled from the spec: a compiled discovery rule —
`{seriesQuery, seriesFilters, name.matches, name.as, resources.overrides,
metricsQuery}`. -/
structure Rule where
  seriesQuery : Str
  seriesFilters : List SeriesFilter
  nameMatches : Regex
  nameAs : Option AsTemplate
  resourceOverrides : List (Str × ResourceRef)
  metricsQuery : Str
deriving DecidableEq

/-- Modelled from the spec: `deriveName(rawSeriesName)` — apply
`seriesFilters` in order; then `name.matches`; a non-match means the rule
does not claim the series (`none`); if `name.as` is given, expand capture
groups into it, else use the captured group verbatim. -/
def deriveName (r : Rule) (raw : Str) : Option Str :=
  if r.seriesFilters.all (fun f => filterAllows f raw) then
    (regexMatch r.nameMatches raw).map (fun cap =>
      match r.nameAs with
      | some tpl => expandAs tpl cap
      | none => cap)
  else
    none

/-- The first sample-config rule: `seriesQuery` `^container_.*_seconds_total$`
(as written in the spec's testable property), no filters,
`name.matches = ^container_(.*)_seconds_total$`, no `name.as`. -/
def sampleSecondsRule : Rule :=
  { seriesQuery := "^container_.*_seconds_total$".toList
    seriesFilters := []
    nameMatches := { pre := "container_".toList, post := "_seconds_total".toList }
    nameAs := none
    resourceOverrides :=
      [ ("namespace".toList, { group := [], resource := "namespace".toList })
      , ("pod".toList, { group := [], resource := "pod".toList }) ]
    metricsQuery :=
      "sum(rate(<<.Series>>\x7b<<.LabelMatchers>>,container!=\"POD\"\x7d[2m])) by (<<.GroupBy>>)".toList }

/-- Look up a label's value in a label set (an association list). -/
def lookupLabel (labels : List (Str × Str)) (l : Str) : Option Str :=
  match labels with
  | [] => none
  | (k, v) :: rest => if k = l then some v else lookupLabel rest l

/-- Modelled from the spec: `resourcesFor(labelSet)` in overrides mode —
map each configured override label to its resource type when the label is
present in the label set; labels of the set not configured as overrides
are dropped silently (they are plain dimensions, not resource
identifiers), never an error.  Each result is
`(label, resourceRef, labelValue)`. -/
def resourcesFor (overrides : List (Str × ResourceRef)) (labels : List (Str × Str)) :
    List (Str × ResourceRef × Str) :=
  overrides.filterMap (fun p => (lookupLabel labels p.1).map (fun v => (p.1, p.2, v)))

/-- Modelled from the spec: the rendering context for a `metricsQuery`
template — the `.Series`, `.LabelMatchers` and `.GroupBy` strings. -/
structure QueryContext where
  series : Str
  labelMatchers : Str
  groupBy : Str

/-- Replace every occurrence of `pat` by `rep` in the string, scanning
left to right; `fuel` bounds the recursion by the input length. -/
def replaceAllAux (pat rep : Str) : Nat → Str → Str
  | 0, s => s
  | _ + 1, [] => []
  | fuel + 1, c :: rest =>
    if isPre pat (c :: rest) then
      rep ++ replaceAllAux pat rep fuel ((c :: rest).drop pat.length)
    else
      c :: replaceAllAux pat rep fuel rest

/-- Replace every occurrence of `pat` by `rep` in `s`. -/
def replaceAll (pat rep s : Str) : Str :=
  replaceAllAux pat rep s.length s

/-- Modelled from the spec: `render(template, context)` — pure placeholder
substitution of the `<<.Series>>`, `<<.LabelMatchers>>` and `<<.GroupBy>>`
placeholders (the `<<`/`>>` delimiter pair is distinct from the backend's
own query syntax). -/
def render (tpl : Str) (ctx : QueryContext) : Str :=
  replaceAll "<<.GroupBy>>".toList ctx.groupBy
    (replaceAll "<<.LabelMatchers>>".toList ctx.labelMatchers
      (replaceAll "<<.Series>>".toList ctx.series tpl))

/-- `containsSeq pat s` is true when `pat` occurs contiguously in `s`. -/
def containsSeq (pat : Str) : Str → Bool
  | [] => isPre pat []
  | c :: rest => isPre pat (c :: rest) || containsSeq pat rest

/-- A discovery query: a `(seriesQuery, seriesFilters)` pair. -/
abbrev DiscoveryQuery := Str × List SeriesFilter

/-- The discovery key of a rule. -/
def queryKey (r : Rule) : DiscoveryQuery :=
  (r.seriesQuery, r.seriesFilters)

/-- Modelled from the spec: the backend discovery queries one relist tick
issues — one per distinct `(seriesQuery, seriesFilters)` pair,
deduplicated across rules (rules differing only in `name` or resource
configuration collapse to one query). -/
def issuedQueries (rules : List Rule) : List DiscoveryQuery :=
  (rules.map queryKey).dedup

/-- A discovered series: its raw family name and its label set. -/
structure SeriesInfo where
  name : Str
  labels : List (Str × Str)
deriving DecidableEq

/-- Modelled from the spec: one entry of the Catalog's index — the rule
claiming the exposed name, the raw series it was derived from, and the
discovered resource references. -/
structure IndexEntry where
  rule : Rule
  seriesName : Str
  resources : List (Str × ResourceRef × Str)

/-- The Catalog's index: exposed metric name → entry. -/
abbrev Index := List (Str × IndexEntry)

/-- Look up an index entry by exposed metric name. -/
def lookupIndex (idx : Index) (name : Str) : Option IndexEntry :=
  match idx with
  | [] => none
  | (k, e) :: rest => if k = name then some e else lookupIndex rest name

/-- Look up the series discovered for a given discovery query. -/
def lookupSeries (results : List (DiscoveryQuery × List SeriesInfo)) (q : DiscoveryQuery) :
    Option (List SeriesInfo) :=
  match results with
  | [] => none
  | (k, ss) :: rest => if k = q then some ss else lookupSeries rest q

/-- Modelled from the spec: run every issued discovery query against the
backend; any backend failure fails the whole discovery pass with its
error. -/
def collectSeries (discover : DiscoveryQuery → Except Str (List SeriesInfo)) :
    List DiscoveryQuery → Except Str (List (DiscoveryQuery × List SeriesInfo))
  | [] => .ok []
  | q :: qs =>
    match discover q with
    | .error e => .error e
    | .ok ss =>
      match collectSeries discover qs with
      | .error e => .error e
      | .ok rest => .ok ((q, ss) :: rest)

/-- Modelled from the spec: build a fresh index — for each rule claiming a
queried series, run the Namer (`deriveName`, `resourcesFor`) to get the
exposed names and resource associations. -/
def buildIndex (rules : List Rule) (results : List (DiscoveryQuery × List SeriesInfo)) : Index :=
  rules.flatMap (fun r =>
    match lookupSeries results (queryKey r) with
    | none => []
    | some ss =>
      ss.filterMap (fun s =>
        (deriveName r s.name).map (fun n =>
          (n, { rule := r, seriesName := s.name
                resources := resourcesFor r.resourceOverrides s.labels }))))

/-- Modelled from the spec: one relist tick — query the backend for every
distinct discovery query, rebuild the index wholesale and swap it in; on
backend failure retain the previous index unchanged and report the
failure (`some error`), never crash. -/
def relistTick (rules : List Rule) (discover : DiscoveryQuery → Except Str (List SeriesInfo))
    (old : Index) : Index × Option Str :=
  match collectSeries discover (issuedQueries rules) with
  | .error e => (old, some e)
  | .ok results => (buildIndex rules results, none)

/-- Modelled from the spec: the relist loop — a timer-driven sequence of
serialized ticks, each using that tick's backend behaviour; it runs to
completion whatever the backends do (a failed tick is reported and the
loop goes on). -/
def relistLoop (rules : List Rule)
    (discovers : List (DiscoveryQuery → Except Str (List SeriesInfo))) (idx : Index) : Index :=
  match discovers with
  | [] => idx
  | d :: ds => relistLoop rules ds (relistTick rules d idx).1

/-- Provider-level errors, per the spec's error handling design. -/
inductive ProviderError where
  | notFound
  | backendUnavailable
deriving DecidableEq

/-- A backend query result row: a label set and a sample value. -/
structure Row where
  labels : List (Str × Str)
  value : Int
deriving DecidableEq

/-- Modelled from the spec: `getValues(kind, groupResource, selector,
metricName)` — look up the rule for `metricName` in the current index
(`NotFound` if absent, issuing no backend query); otherwise render the
rule's `metricsQuery` via the QueryBuilder, execute it against the
backend, and map the returned rows to values.  The second component
counts the backend query calls the request performed. -/
def getValues (idx : Index) (backend : Str → Except Str (List Row))
    (labelMatchers groupBy : Str) (metricName : Str) :
    Except ProviderError (List (List (Str × Str) × Int)) × Nat :=
  match lookupIndex idx metricName with
  | none => (.error .notFound, 0)
  | some entry =>
    let query := render entry.rule.metricsQuery
      { series := entry.seriesName, labelMatchers := labelMatchers, groupBy := groupBy }
    match backend query with
    | .error _ => (.error .backendUnavailable, 1)
    | .ok rows => (.ok (rows.map (fun row => (row.labels, row.value))), 1)

/-- Number of occurrences of `a` in a list. -/
def countOcc {α : Type} [DecidableEq α] (a : α) : List α → Nat
  | [] => 0
  | x :: rest => (if x = a then 1 else 0) + countOcc a rest

/-- The sample rule with a different `name` configuration (an explicit
`name.as` template) but the same `(seriesQuery, seriesFilters)` pair. -/
def sampleSecondsRuleRenamed : Rule :=
  { sampleSecondsRule with nameAs := some [AsPart.lit "renamed_".toList, AsPart.group 1] }

/-- The metrics discovery configuration, as `cmd/adapter/adapter.go` uses
it: the discovery rules and whether resource rules are present
(`metricsConfig.ResourceRules != nil`). -/
structure MetricsDiscoveryConfig where
  rules : List Rule
  hasResourceRules : Bool
deriving DecidableEq

/-- From `adapter.go` `PrometheusAdapter.loadConfig`: error when no
metrics discovery configuration file was specified via `--config`;
otherwise load it with `adaptercfg.FromFile` (abstracted as the `fromFile`
collaborator), wrapping its error. -/
def loadConfig (adapterConfigFile : String)
    (fromFile : String → Except String MetricsDiscoveryConfig) :
    Except String MetricsDiscoveryConfig :=
  if adapterConfigFile = "" then
    Except.error "no metrics discovery configuration file specified (make sure to use --config)"
  else
    match fromFile adapterConfigFile with
    | .error e => .error ("unable to load metrics discovery configuration: " ++ e)
    | .ok c => .ok c

/-- From `adapter.go` `PrometheusAdapter.makeProvider`: with zero
discovery rules return `(nil, nil)` — no provider and no error; otherwise
build the RESTMapper, the dynamic client and the namers (abstracted
collaborators, each fallible with the wrapped error messages of the
source), then construct and start the provider. -/
def makeProvider (cfg : MetricsDiscoveryConfig)
    (restMapper : Except String Unit) (dynClient : Except String Unit)
    (namersFromConfig : Except String Unit) : Except String (Option Unit) :=
  if cfg.rules.length = 0 then
    .ok none
  else
    match restMapper with
    | .error e => .error ("unable to construct RESTMapper: " ++ e)
    | .ok _ =>
      match dynClient with
      | .error e => .error ("unable to construct Kubernetes client: " ++ e)
      | .ok _ =>
        match namersFromConfig with
        | .error e => .error ("unable to construct naming scheme from metrics rules: " ++ e)
        | .ok _ => .ok (some ())

/-- From `adapter.go` `PrometheusAdapter.addResourceMetricsAPI`: bail with
no error when there are no resource rules; otherwise run the
mapper/provider/storage installation chain (abstracted as one fallible
collaborator). -/
def addResourceMetricsAPI (cfg : MetricsDiscoveryConfig)
    (installChain : Except String Unit) : Except String Unit :=
  if cfg.hasResourceRules then installChain else .ok ()

/-- The HTTP client `makeKubeconfigHTTPClient` returns: Go's
`http.DefaultClient`, or a client wrapping a transport built from an auth
configuration. -/
inductive HTTPClient (β : Type) where
  | defaultClient : HTTPClient β
  | withTransport : β → HTTPClient β
deriving DecidableEq

/-- From `adapter.go` `makeKubeconfigHTTPClient`: reject using both
in-cluster auth and an explicit kubeconfig; with neither, return the
default client; otherwise build the auth configuration from the
kubeconfig path or the in-cluster environment (abstracted fallible
collaborators over an abstract config type `α`) and wrap its transport
(`transportFor`). -/
def makeKubeconfigHTTPClient {α β : Type} (inClusterAuth : Bool) (kubeConfigPath : String)
    (loadKubeconfig : String → Except String α) (inClusterConfig : Except String α)
    (transportFor : α → Except String β) : Except String (HTTPClient β) :=
  if inClusterAuth && !(kubeConfigPath == "") then
    .error "may not use both in-cluster auth and an explicit kubeconfig at the same time"
  else if !inClusterAuth && kubeConfigPath == "" then
    .ok .defaultClient
  else
    let authConf : Except String α :=
      if kubeConfigPath == "" then
        match inClusterConfig with
        | .error e =>
          .error ("unable to construct in-cluster auth configuration for connecting to Prometheus: "
            ++ e)
        | .ok c => .ok c
      else
        match loadKubeconfig kubeConfigPath with
        | .error e =>
          .error ("unable to construct auth configuration from the kubeconfig for connecting to Prometheus: "
            ++ e)
        | .ok c => .ok c
    match authConf with
    | .error e => .error e
    | .ok c =>
      match transportFor c with
      | .error e => .error ("unable to construct client transport for connecting to Prometheus: " ++ e)
      | .ok t => .ok (.withTransport t)

/-- The terminal outcome of `main`: a fatal exit at one of the bootstrap
stages (`glog.Fatalf`), or the server running, recording whether a custom
metrics provider was attached (`cmd.WithCustomMetrics`). -/
inductive MainOutcome where
  | fatalPromClient : String → MainOutcome
  | fatalLoadConfig : String → MainOutcome
  | fatalMakeProvider : String → MainOutcome
  | fatalResourceMetrics : String → MainOutcome
  | fatalRun : String → MainOutcome
  | serverRan : Bool → MainOutcome
deriving DecidableEq

/-- The external collaborators `main` sequences through, each abstracted
as its outcome. -/
structure MainDeps where
  promClient : Except String Unit
  fromFile : String → Except String MetricsDiscoveryConfig
  restMapper : Except String Unit
  dynClient : Except String Unit
  namersFromConfig : MetricsDiscoveryConfig → Except String Unit
  installChain : Except String Unit
  run : Except String Unit

/-- From `adapter.go` `main`: build the Prometheus client, load the
config, construct the custom metrics provider, attach it if non-nil,
install the resource metrics API, then run the server; any error along
the way is fatal (`glog.Fatalf`) and nothing after it executes. -/
def mainFlow (d : MainDeps) (adapterConfigFile : String) : MainOutcome :=
  match d.promClient with
  | .error e => .fatalPromClient e
  | .ok _ =>
    match loadConfig adapterConfigFile d.fromFile with
    | .error e => .fatalLoadConfig e
    | .ok cfg =>
      match makeProvider cfg d.restMapper d.dynClient (d.namersFromConfig cfg) with
      | .error e => .fatalMakeProvider e
      | .ok provOpt =>
        match addResourceMetricsAPI cfg d.installChain with
        | .error e => .fatalResourceMetrics e
        | .ok _ =>
          match d.run with
          | .error e => .fatalRun e
          | .ok _ => .serverRan provOpt.isSome

/-- Collaborators that all succeed, loading an empty rule set. -/
def noRulesDeps : MainDeps :=
  { promClient := .ok ()
    fromFile := fun _ => .ok { rules := [], hasResourceRules := false }
    restMapper := .ok ()
    dynClient := .ok ()
    namersFromConfig := fun _ => .ok ()
    installChain := .ok ()
    run := .ok () }

end DeployKube

namespace DeployKube

/-- Claim C1: for the rule with `seriesQuery = ^container_.*_seconds_total$`
and `name.matches = ^container_(.*)_seconds_total$` (no `name.as`),
`deriveName` applied to `container_cpu_usage_seconds_total` returns
`cpu_usage` (the captured group verbatim); and for any raw series name the
regex does not match, the rule does not claim the series. -/
theorem deriveName_sampleSecondsRule :
    deriveName sampleSecondsRule "container_cpu_usage_seconds_total".toList
      = some "cpu_usage".toList
    ∧ ∀ raw : Str, regexMatch sampleSecondsRule.nameMatches raw = none →
        deriveName sampleSecondsRule raw = none := by
  constructor
  · decide
  · intro raw h
    unfold deriveName
    rw [show sampleSecondsRule.seriesFilters = [] from rfl]
    simp [h]

/-- Witness for C1: the regex does not match `foo`, and the rule does not
claim it. -/
theorem deriveName_sampleSecondsRule_witness :
    deriveName sampleSecondsRule "foo".toList = none :=
  deriveName_sampleSecondsRule.2 "foo".toList (by decide)

/-- Claim C7: with overrides `{namespace ↦ namespace, pod ↦ pod}`,
`resourcesFor {namespace:ns1, pod:p1, container:c1}` returns exactly the
namespace and pod references, no reference for `container`; and for every
override set and label set, every returned reference comes from a
configured override label whose label is present — labels not resolvable
to a resource type are dropped silently, never an error. -/
theorem resourcesFor_drops_unresolved :
    resourcesFor sampleSecondsRule.resourceOverrides
        [ ("namespace".toList, "ns1".toList)
        , ("pod".toList, "p1".toList)
        , ("container".toList, "c1".toList) ]
      = [ ("namespace".toList, { group := [], resource := "namespace".toList }, "ns1".toList)
        , ("pod".toList, { group := [], resource := "pod".toList }, "p1".toList) ]
    ∧ ∀ (overrides : List (Str × ResourceRef)) (labels : List (Str × Str)),
        ∀ x ∈ resourcesFor overrides labels,
          x.1 ∈ overrides.map Prod.fst ∧ lookupLabel labels x.1 ≠ none := by
  constructor
  · decide
  · intro overrides labels x hx
    simp only [resourcesFor, List.mem_filterMap, Option.map_eq_some'] at hx
    obtain ⟨p, hp, v, hv, rfl⟩ := hx
    exact ⟨List.mem_map_of_mem Prod.fst hp, by simp [hv]⟩

/-- Witness for C7: the namespace entry returned on the concrete label set
indeed stems from a configured override with its label present. -/
theorem resourcesFor_drops_unresolved_witness :
    ("namespace".toList, ({ group := [], resource := "namespace".toList } : ResourceRef),
        "ns1".toList).1
      ∈ sampleSecondsRule.resourceOverrides.map Prod.fst
    ∧ lookupLabel
        [ ("namespace".toList, "ns1".toList)
        , ("pod".toList, "p1".toList)
        , ("container".toList, "c1".toList) ]
        ("namespace".toList, ({ group := [], resource := "namespace".toList } : ResourceRef),
          "ns1".toList).1 ≠ none :=
  resourcesFor_drops_unresolved.2 sampleSecondsRule.resourceOverrides
    [ ("namespace".toList, "ns1".toList)
    , ("pod".toList, "p1".toList)
    , ("container".toList, "c1".toList) ]
    _ (by decide)

/-- Claim C6: rendering the sample `metricsQuery` template with
`Series="foo"`, `LabelMatchers="a=\"b\""`, `GroupBy="c"` substitutes all
three placeholders verbatim, and the output contains no leftover `<<` or
`>>` delimiter tokens.  (`render` is a pure function of
`(template, context)` by construction.) -/
theorem render_sampleQuery :
    render sampleSecondsRule.metricsQuery
        { series := "foo".toList, labelMatchers := "a=\"b\"".toList, groupBy := "c".toList }
      = "sum(rate(foo\x7ba=\"b\",container!=\"POD\"\x7d[2m])) by (c)".toList
    ∧ containsSeq "<<".toList
        (render sampleSecondsRule.metricsQuery
          { series := "foo".toList, labelMatchers := "a=\"b\"".toList, groupBy := "c".toList })
      = false
    ∧ containsSeq ">>".toList
        (render sampleSecondsRule.metricsQuery
          { series := "foo".toList, labelMatchers := "a=\"b\"".toList, groupBy := "c".toList })
      = false := by
  refine ⟨by decide, by decide, by decide⟩

/-- Helper: the count of an element absent from a list is zero. -/
theorem countOcc_eq_zero {α : Type} [DecidableEq α] (a : α) (l : List α) (h : a ∉ l) :
    countOcc a l = 0 := by
  induction l with
  | nil => rfl
  | cons x rest ih =>
    rw [List.mem_cons, not_or] at h
    simp [countOcc, Ne.symm h.1, ih h.2]

/-- Helper: the count of a member of a duplicate-free list is one. -/
theorem countOcc_nodup {α : Type} [DecidableEq α] (a : α) (l : List α)
    (hnd : l.Nodup) (hmem : a ∈ l) : countOcc a l = 1 := by
  induction l with
  | nil => cases hmem
  | cons x rest ih =>
    rw [List.nodup_cons] at hnd
    rcases List.mem_cons.mp hmem with h | h
    · subst h
      simp [countOcc, countOcc_eq_zero a rest hnd.1]
    · have hxa : x ≠ a := fun hx => hnd.1 (hx ▸ h)
      simp [countOcc, hxa, ih hnd.2 h]

/-- Claim C2: `getValues` for a metric name absent from the Catalog's
current index returns the `NotFound` error and performs no backend query
call during that request. -/
theorem getValues_absent_notFound (idx : Index) (backend : Str → Except Str (List Row))
    (labelMatchers groupBy metricName : Str)
    (h : lookupIndex idx metricName = none) :
    getValues idx backend labelMatchers groupBy metricName
      = (Except.error ProviderError.notFound, 0) := by
  simp [getValues, h]

/-- Witness for C2: `cpu_usage` is absent from the empty index and the
request fails with `NotFound` and zero backend calls. -/
theorem getValues_absent_notFound_witness :
    getValues [] (fun _ => Except.ok []) [] [] "cpu_usage".toList
      = (Except.error ProviderError.notFound, 0) :=
  getValues_absent_notFound [] (fun _ => Except.ok []) [] [] "cpu_usage".toList rfl

/-- Helper: a failing discovery query among the issued ones fails the
whole discovery pass. -/
theorem collectSeries_error_of_mem (discover : DiscoveryQuery → Except Str (List SeriesInfo))
    (qs : List DiscoveryQuery) (q : DiscoveryQuery) (hq : q ∈ qs) (e : Str)
    (he : discover q = Except.error e) :
    ∃ e2, collectSeries discover qs = Except.error e2 := by
  induction qs with
  | nil => cases hq
  | cons a as ih =>
    rcases List.mem_cons.mp hq with h | h
    · subst h
      exact ⟨e, by simp [collectSeries, he]⟩
    · cases hda : discover a with
      | error ea => exact ⟨ea, by simp [collectSeries, hda]⟩
      | ok ss =>
        obtain ⟨e2, h2⟩ := ih h
        exact ⟨e2, by simp [collectSeries, hda, h2]⟩

/-- Claim C3: on a relist tick whose backend discovery fails, the index
after the tick equals the index before it, the failure is reported, and
the relist loop neither crashes nor stops — it proceeds to the remaining
ticks with the retained index. -/
theorem relistTick_backend_failure (rules : List Rule)
    (discover : DiscoveryQuery → Except Str (List SeriesInfo)) (old : Index)
    (h : ∃ q ∈ issuedQueries rules, ∃ e, discover q = Except.error e) :
    (relistTick rules discover old).1 = old
    ∧ (relistTick rules discover old).2.isSome = true
    ∧ ∀ ds, relistLoop rules (discover :: ds) old = relistLoop rules ds old := by
  obtain ⟨q, hq, e, he⟩ := h
  obtain ⟨e2, hcol⟩ := collectSeries_error_of_mem discover (issuedQueries rules) q hq e he
  refine ⟨?_, ?_, ?_⟩
  · simp [relistTick, hcol]
  · simp [relistTick, hcol]
  · intro ds
    simp [relistLoop, relistTick, hcol]

/-- Witness for C3: with one rule and a backend that is down, the tick
leaves the empty index unchanged. -/
theorem relistTick_backend_failure_witness :
    (relistTick [sampleSecondsRule] (fun _ => Except.error "down".toList) []).1 = []
    ∧ (relistTick [sampleSecondsRule] (fun _ => Except.error "down".toList) []).2.isSome
      = true :=
  ⟨(relistTick_backend_failure [sampleSecondsRule] (fun _ => Except.error "down".toList) []
      ⟨queryKey sampleSecondsRule, by decide, "down".toList, rfl⟩).1,
   (relistTick_backend_failure [sampleSecondsRule] (fun _ => Except.error "down".toList) []
      ⟨queryKey sampleSecondsRule, by decide, "down".toList, rfl⟩).2.1⟩

/-- Claim C4: two rules of the loaded rule set sharing an identical
`(seriesQuery, seriesFilters)` pair give rise to exactly one backend
discovery query for that pair per relist tick — not one per rule — even
when the rules differ in their `name` configuration. -/
theorem issuedQueries_one_per_key (rules : List Rule) (r1 r2 : Rule)
    (h1 : r1 ∈ rules) (h2 : r2 ∈ rules) (hkey : queryKey r1 = queryKey r2) :
    countOcc (queryKey r1) (issuedQueries rules) = 1
    ∧ countOcc (queryKey r2) (issuedQueries rules) = 1 := by
  have hmem : queryKey r1 ∈ (rules.map queryKey).dedup :=
    List.mem_dedup.mpr (List.mem_map_of_mem queryKey h1)
  have hone : countOcc (queryKey r1) (issuedQueries rules) = 1 :=
    countOcc_nodup _ _ (List.nodup_dedup _) hmem
  exact ⟨hone, hkey ▸ hone⟩

/-- Witness for C4: the sample rule and its renamed variant share one
discovery key, and one tick issues exactly one query for it. -/
theorem issuedQueries_one_per_key_witness :
    countOcc (queryKey sampleSecondsRule)
        (issuedQueries [sampleSecondsRule, sampleSecondsRuleRenamed]) = 1
    ∧ countOcc (queryKey sampleSecondsRuleRenamed)
        (issuedQueries [sampleSecondsRule, sampleSecondsRuleRenamed]) = 1 :=
  issuedQueries_one_per_key [sampleSecondsRule, sampleSecondsRuleRenamed]
    sampleSecondsRule sampleSecondsRuleRenamed (by decide) (by decide) (by decide)

/-- Claim C5: when configuration loading fails — in particular when no
metrics discovery configuration file is specified via `--config` —
`loadConfig` returns a non-nil error and `main` terminates fatally at the
config-loading stage, never running the server. -/
theorem loadConfig_failure_fatal (d : MainDeps) (hpc : d.promClient = Except.ok ()) :
    loadConfig "" d.fromFile
      = Except.error
          "no metrics discovery configuration file specified (make sure to use --config)"
    ∧ mainFlow d ""
      = MainOutcome.fatalLoadConfig
          "no metrics discovery configuration file specified (make sure to use --config)"
    ∧ ∀ (file : String) (e : String), loadConfig file d.fromFile = Except.error e →
        mainFlow d file = MainOutcome.fatalLoadConfig e := by
  refine ⟨rfl, ?_, ?_⟩
  · simp [mainFlow, hpc, loadConfig]
  · intro file e h
    simp [mainFlow, hpc, h]

/-- Witness for C5: with an otherwise healthy bootstrap and an empty
`--config`, `main` exits fatally at config loading. -/
theorem loadConfig_failure_fatal_witness :
    mainFlow noRulesDeps ""
      = MainOutcome.fatalLoadConfig
          "no metrics discovery configuration file specified (make sure to use --config)" :=
  (loadConfig_failure_fatal noRulesDeps rfl).2.1

/-- Claim C9: with zero discovery rules in the loaded configuration,
`makeProvider` returns no provider and no error, and `main` consequently
attaches no custom metrics provider to the server — a silent no-op, not a
load failure. -/
theorem makeProvider_no_rules (cfg : MetricsDiscoveryConfig)
    (restMapper dynClient namersFromConfig : Except String Unit)
    (hrules : cfg.rules = []) :
    makeProvider cfg restMapper dynClient namersFromConfig = Except.ok none
    ∧ ∀ (d : MainDeps) (file : String),
        d.promClient = Except.ok () →
        loadConfig file d.fromFile = Except.ok cfg →
        addResourceMetricsAPI cfg d.installChain = Except.ok () →
        d.run = Except.ok () →
        mainFlow d file = MainOutcome.serverRan false := by
  constructor
  · simp [makeProvider, hrules]
  · intro d file h1 h2 h3 h4
    simp [mainFlow, h1, h2, h3, h4, makeProvider, hrules]

/-- Witness for C9: a configuration with zero rules makes `main` run the
server with no custom metrics provider attached. -/
theorem makeProvider_no_rules_witness :
    makeProvider { rules := [], hasResourceRules := false } (Except.ok ()) (Except.ok ())
        (Except.ok ()) = Except.ok none
    ∧ mainFlow noRulesDeps "adapter-config.yaml" = MainOutcome.serverRan false :=
  ⟨(makeProvider_no_rules { rules := [], hasResourceRules := false } (Except.ok ())
      (Except.ok ()) (Except.ok ()) rfl).1,
   (makeProvider_no_rules { rules := [], hasResourceRules := false } (Except.ok ())
      (Except.ok ()) (Except.ok ()) rfl).2 noRulesDeps "adapter-config.yaml" rfl rfl
      rfl rfl⟩

/-- Claim C10: `makeKubeconfigHTTPClient` rejects in-cluster auth combined
with a non-empty kubeconfig path (the two auth sources are mutually
exclusive), and with neither source returns the default HTTP client with
no error. -/
theorem makeKubeconfigHTTPClient_auth_sources {α β : Type}
    (loadKubeconfig : String → Except String α) (inClusterConfig : Except String α)
    (transportFor : α → Except String β) (path : String) :
    (path ≠ "" →
      makeKubeconfigHTTPClient true path loadKubeconfig inClusterConfig transportFor
        = Except.error "may not use both in-cluster auth and an explicit kubeconfig at the same time")
    ∧ makeKubeconfigHTTPClient false "" loadKubeconfig inClusterConfig transportFor
        = Except.ok HTTPClient.defaultClient := by
  constructor
  · intro hp
    have hb : (path == "") = false := beq_eq_false_iff_ne.mpr hp
    simp [makeKubeconfigHTTPClient, hb]
  · rfl

/-- Witness for C10: both auth sources at once is an error; no auth
source yields the default client. -/
theorem makeKubeconfigHTTPClient_auth_sources_witness :
    makeKubeconfigHTTPClient true "kubecfg"
        (fun _ => Except.ok ()) (Except.ok ()) (fun _ => Except.ok ())
      = Except.error "may not use both in-cluster auth and an explicit kubeconfig at the same time"
    ∧ makeKubeconfigHTTPClient false ""
        (fun _ => Except.ok ()) (Except.ok ()) (fun _ => Except.ok ())
      = Except.ok HTTPClient.defaultClient :=
  ⟨(makeKubeconfigHTTPClient_auth_sources (fun _ => Except.ok ()) (Except.ok ())
      (fun _ => Except.ok ()) "kubecfg").1 (by decide),
   (makeKubeconfigHTTPClient_auth_sources (fun _ => Except.ok ()) (Except.ok ())
      (fun _ => Except.ok ()) "kubecfg").2⟩

end DeployKube
